import Mathlib

/-!
Verification of the s2-superresolution core pipeline (region-of-interest
resolution, band reconciliation, aligned extraction, output georeferencing)
against a shallow Lean embedding of the repository's Python sources
(`s2_tiles_supres.py` in its three variants: the top-level script, the
`blocks/s2_superresolution` class, and the refactored `src/` class).

Conventions of the embedding:
* Python integers are `Int`; raster dimensions are passed explicitly where the
  source reads them from an open raster handle.
* Python `int(a / b)` (true division then truncation toward zero) is
  `Int.tdiv a b`; Python floor division `a // b` is `Int.fdiv a b`.
* A raster handle is reduced to the metadata the core reads from it: width,
  height, band count, per-band descriptions, and a pixel accessor.
* The module-level mutable `select_bands` pool of the script is threaded
  explicitly as a value (the pool goes in and the leftover pool comes out).
-/

/-- Pixel-space region of interest as returned by `get_max_min`:
`(tmxmin, tmymin, tmxmax, tmymax, area)`. -/
structure RegionOfInterest where
  xmin : Int
  ymin : Int
  xmax : Int
  ymax : Int
  area : Int
deriving DecidableEq, Repr

/-- Embedding of `get_max_min(x_1, y_1, x_2, y_2, data)` (identical in all
three source variants).  The raster enters only through its width and height.
Each coordinate is clamped into `[0, dim-1]`, min/max are taken per axis, then
the bounds are snapped to the 6-pixel (60 m) grid with `int(v / 6) * 6` for
the minima and `int((v + 1) / 6) * 6 - 1` for the maxima; `int( / 6)` is
truncation toward zero, i.e. `Int.tdiv`. -/
def get_max_min (x_1 y_1 x_2 y_2 width height : Int) : RegionOfInterest :=
  let tmxmin := max (min (min x_1 x_2) (width - 1)) 0
  let tmxmax := min (max (max x_1 x_2) 0) (width - 1)
  let tmymin := max (min (min y_1 y_2) (height - 1)) 0
  let tmymax := min (max (max y_1 y_2) 0) (height - 1)
  let sxmin := (Int.tdiv tmxmin 6) * 6
  let sxmax := (Int.tdiv (tmxmax + 1) 6) * 6 - 1
  let symin := (Int.tdiv tmymin 6) * 6
  let symax := (Int.tdiv (tmymax + 1) 6) * 6 - 1
  ⟨sxmin, symin, sxmax, symax, (sxmax - sxmin + 1) * (symax - symin + 1)⟩

/-- The clamped minimum of one axis, before snapping (first two lines of
`get_max_min`). -/
def clampMin (v_1 v_2 dim : Int) : Int := max (min (min v_1 v_2) (dim - 1)) 0

/-- The clamped maximum of one axis, before snapping. -/
def clampMax (v_1 v_2 dim : Int) : Int := min (max (max v_1 v_2) 0) (dim - 1)

/-- The literal separator in the band-description pattern
`"(.*?), central wavelength (\d+) nm"`. -/
def cwlSep : String := ", central wavelength "

/-- The literal suffix after the digit group in the pattern. -/
def nmSuffix : String := " nm"

/-- Try to match `", central wavelength (\d+) nm"` as a prefix of `l`,
returning the matched digit group.  The digit group is greedy; no
backtracking can shorten it, because the following literal starts with a
space, which is not a digit. -/
def matchWavelengthAt (l : List Char) : Option (List Char) :=
  let sep := cwlSep.toList
  if sep.isPrefixOf l then
    let rest := l.drop sep.length
    let digits := rest.takeWhile Char.isDigit
    if digits = [] then none
    else if nmSuffix.toList.isPrefixOf (rest.drop digits.length) then some digits
    else none
  else none

/-- Scanner for Python `re.match("(.*?), central wavelength (\d+) nm", s)`.
The lazy group `(.*?)` takes the shortest prefix for which the remainder of
the pattern matches, and cannot contain a newline (`.` does not match `\n`);
`re.match` anchors at the start only, so trailing text is allowed.  Returns
`(group 1, group 2)` on success. -/
def findWavelength : List Char → List Char → Option (List Char × List Char)
  | acc, [] =>
    match matchWavelengthAt [] with
    | some digits => some (acc.reverse, digits)
    | none => none
  | acc, ch :: rest =>
    match matchWavelengthAt (ch :: rest) with
    | some digits => some (acc.reverse, digits)
    | none => if ch = '\n' then none else findWavelength (ch :: acc) rest

/-- Embedding of the top-level script's `validate_description(description)`.
The script reads the ambient `output_file_format` option; it is passed
explicitly here.  On a pattern match the description is rewritten to
`"<label> (<digits> nm)"`; otherwise, if the format is ENVI and the
description contains a comma, the first comma is deleted
(`description[:pos] + description[pos+1:]`); otherwise the description is
returned unchanged. -/
def validate_description (output_file_format : String) (description : String) : String :=
  match findWavelength [] description.toList with
  | some (g1, digits) => String.mk (g1 ++ (" (").toList ++ digits ++ (" nm)").toList)
  | none =>
    if output_file_format = "ENVI" ∧ ',' ∈ description.toList then
      String.mk (description.toList.erase ',')
    else description

/-- Embedding of `Superresolution.validate_description` from the refactored
`src/` variant (and the blocks variant): same rewrite, but with no
format-dependent branch. -/
def Superresolution.validate_description (description : String) : String :=
  match findWavelength [] description.toList with
  | some (g1, digits) => String.mk (g1 ++ (" (").toList ++ digits ++ (" nm)").toList)
  | none => description

/-- Embedding of `get_band_short_name(description)` (identical in all
variants): the prefix before the first comma if any, else before the first
space if any, else the first three characters. -/
def get_band_short_name (description : String) : String :=
  if ',' ∈ description.toList then
    String.mk (description.toList.takeWhile (fun ch => ch ≠ ','))
  else if ' ' ∈ description.toList then
    String.mk (description.toList.takeWhile (fun ch => ch ≠ ' '))
  else
    String.mk (description.toList.take 3)

/-- A raster handle, reduced to the metadata and pixel access the core uses.
`descriptions` lists the per-band free-text descriptions in native band
order; the band count is its length.  `pix b r c` is the pixel value of band
`b` at row `r`, column `c`. -/
structure Raster where
  width : Int
  height : Int
  descriptions : List String
  pix : Nat → Nat → Nat → Int

/-- The band count of a raster (`data.count`). -/
def Raster.count (data : Raster) : Nat := data.descriptions.length

/-- Result of one `validate` call: the matched band codes in raster-scan
order, their 0-based raster indices, the per-code normalized descriptions
(in claim order), and the leftover candidate pool. -/
structure VResult where
  bands : List String
  indices : List Nat
  descmap : List (String × String)
  pool : List String
deriving DecidableEq, Repr

/-- The scanning loop of `validate`, parameterized by the description
normalizer (the script uses `validate_description output_file_format`, the
class variants use `Superresolution.validate_description`).  The candidate
pool is threaded explicitly: the script mutates the module-level
`select_bands` list via `select_bands.remove(name)`, which is modelled by
returning the leftover pool. -/
def validateAux (normalize : String → String) :
    List String → List String → Nat → VResult
  | pool, [], _ => ⟨[], [], [], pool⟩
  | pool, d :: rest, i =>
    let desc := normalize d
    let name := get_band_short_name desc
    if name ∈ pool then
      let r := validateAux normalize (pool.erase name) rest (i + 1)
      ⟨name :: r.bands, i :: r.indices, (name, desc) :: r.descmap, r.pool⟩
    else
      validateAux normalize pool rest (i + 1)

/-- The script's initial `select_bands` pool: the full canonical catalog when
`run_60` is set, the 20 m catalog otherwise (`B10` excluded in both).  The
source builds it as `re.split(',', "B1,B2,...")`; the split result is given
literally. -/
def select_bands (run_60 : Bool) : List String :=
  if run_60 then ["B1", "B2", "B3", "B4", "B5", "B6", "B7", "B8", "B8A", "B9", "B11", "B12"]
  else ["B2", "B3", "B4", "B5", "B6", "B7", "B8", "B8A", "B11", "B12"]

/-- Embedding of the top-level script's `validate(data)` with the shared
mutable pool made explicit: it scans `data`'s bands in native order and
claims each short name still present in the pool. -/
def validate (output_file_format : String) (pool : List String) (data : Raster) : VResult :=
  validateAux (validate_description output_file_format) pool data.descriptions 0

/-- Embedding of `Superresolution.validate(data)` from the refactored `src/`
variant: the candidate pool is re-created from the canonical catalog inside
every call, and the format-independent normalizer is used. -/
def Superresolution.validate (data : Raster) : VResult :=
  validateAux Superresolution.validate_description
    (["B1", "B2", "B3", "B4", "B5", "B6", "B7", "B8", "B8A", "B9", "B11", "B12"])
    data.descriptions 0

/-- A one-band raster whose band is described as the canonical B2 band; used
as a concrete input below. -/
def b2Raster : Raster :=
  ⟨40, 40, ["B2, central wavelength 490 nm"], fun _ _ _ => 0⟩

/-- A rasterio `Window(col_off, row_off, width, height)`. -/
structure Window where
  col_off : Int
  row_off : Int
  width : Int
  height : Int
deriving DecidableEq, Repr

/-- The window built inside the script/blocks `data_final`:
`Window(col_off=x_mi, row_off=y_mi, width=x_ma - x_mi + n, height=y_ma - y_mi + n)`. -/
def mkWindow (x_mi y_mi x_ma y_ma n : Int) : Window :=
  ⟨x_mi, y_mi, x_ma - x_mi + n, y_ma - y_mi + n⟩

/-- A 3-dimensional numeric array of shape `(d0, d1, d2)`. -/
structure Arr3 where
  d0 : Nat
  d1 : Nat
  d2 : Nat
  val : Nat → Nat → Nat → Int

/-- `data.read(window=w)`: a (band, row, column) array of shape
`(count, w.height, w.width)` whose entries are read from the raster at the
window offset (modelling an in-bounds window read). -/
def Raster.read (data : Raster) (w : Window) : Arr3 :=
  ⟨data.count, w.height.toNat, w.width.toNat,
   fun b r c => data.pix b (w.row_off.toNat + r) (w.col_off.toNat + c)⟩

/-- `np.rollaxis(a, 0, 3)`: move axis 0 to the last position, giving shape
`(d1, d2, d0)`. -/
def rollaxis_0_3 (a : Arr3) : Arr3 :=
  ⟨a.d1, a.d2, a.d0, fun r c b => a.val b r c⟩

/-- `a[:, :, term]`: fancy-index the last axis by the index list `term`. -/
def indexLastAxis (a : Arr3) (term : List Nat) : Arr3 :=
  ⟨a.d0, a.d1, term.length, fun r c j => a.val r c (term.getD j 0)⟩

/-- Embedding of the script/blocks `data_final(data, term, x_mi, y_mi, x_ma,
y_ma, n)`.  When `term` is empty the guarded read is skipped and the final
`return d_final` raises `UnboundLocalError`; that failure is modelled as
`none`. -/
def data_final (data : Raster) (term : List Nat) (x_mi y_mi x_ma y_ma n : Int) :
    Option Arr3 :=
  if term = [] then none
  else some (indexLastAxis (rollaxis_0_3 (data.read (mkWindow x_mi y_mi x_ma y_ma n))) term)

/-- Embedding of `Superresolution.data_final(data, term, x_mi, y_mi, x_ma,
y_ma, n_res, scale)` from the refactored `src/` variant: the window is
`Window(x_mi // scale, y_mi // scale, (x_ma - x_mi + n_res) // scale,
(y_ma - y_mi + n_res) // scale)` (Python floor division is `Int.fdiv`), and
an empty `term` again leaves `d_final` unbound, modelled as `none`. -/
def Superresolution.data_final (data : Raster) (term : List Nat)
    (x_mi y_mi x_ma y_ma n_res scale : Int) : Option Arr3 :=
  if term = [] then none
  else some (indexLastAxis (rollaxis_0_3 (data.read
    ⟨Int.fdiv x_mi scale, Int.fdiv y_mi scale,
     Int.fdiv (x_ma - x_mi + n_res) scale,
     Int.fdiv (y_ma - y_mi + n_res) scale⟩)) term)

/-- The window passed to `data_final` for the 10 m raster at the blocks
`run_model` call site (and the script's equivalent lines):
`data_final(d1, ..., xmin, ymin, xmax, ymax, 1)`. -/
def run_model_window10 (xmin ymin xmax ymax : Int) : Window :=
  mkWindow xmin ymin xmax ymax 1

/-- The window passed for the 20 m raster:
`data_final(d2, ..., xmin // 2, ymin // 2, xmax // 2, ymax // 2, 1 // 2)`
(note `1 // 2 = 0`). -/
def run_model_window20 (xmin ymin xmax ymax : Int) : Window :=
  mkWindow (Int.fdiv xmin 2) (Int.fdiv ymin 2) (Int.fdiv xmax 2) (Int.fdiv ymax 2)
    (Int.fdiv 1 2)

/-- The window passed for the 60 m raster:
`data_final(d6, ..., xmin // 6, ymin // 6, xmax // 6, ymax // 6, 1 // 6)`
(note `1 // 6 = 0`). -/
def run_model_window60 (xmin ymin xmax ymax : Int) : Window :=
  mkWindow (Int.fdiv xmin 6) (Int.fdiv ymin 6) (Int.fdiv xmax 6) (Int.fdiv ymax 6)
    (Int.fdiv 1 6)

/-- A rasterio affine transform `Affine(a, b, c, d, e, f)` mapping pixel
`(col, row)` to world coordinates `(a*col + b*row + c, d*col + e*row + f)`.
The float coefficients are modelled exactly as rationals. -/
structure Affine where
  a : ℚ
  b : ℚ
  c : ℚ
  d : ℚ
  e : ℚ
  f : ℚ
deriving DecidableEq, Repr

/-- Composition of affine transforms (the `*` of `rasterio.Affine`, i.e. the
product of the corresponding 3x3 matrices). -/
def Affine.mul (S T : Affine) : Affine :=
  ⟨S.a * T.a + S.b * T.d, S.a * T.b + S.b * T.e, S.a * T.c + S.b * T.f + S.c,
   S.d * T.a + S.e * T.d, S.d * T.b + S.e * T.e, S.d * T.c + S.e * T.f + S.f⟩

/-- `rasterio.Affine.translation(x, y)`. -/
def Affine.translation (x y : ℚ) : Affine := ⟨1, 0, x, 0, 1, y⟩

/-- Apply an affine transform to a pixel coordinate. -/
def Affine.apply (T : Affine) (col row : ℚ) : ℚ × ℚ :=
  (T.a * col + T.b * row + T.c, T.d * col + T.e * row + T.f)

/-- The raster profile fields that `update` touches. -/
structure Profile where
  transform : Affine
  dtype : String
  driver : String
  width : Nat
  height : Nat
  count : Nat

/-- Embedding of the blocks `Superresolution.update(data, size_10m,
model_output, xmi, ymi)`.  `size_10m` is `data10.shape` (rows, columns,
bands) and `model_output_shape` is `model_output.shape`; the ambient
`copy_original_bands` parameter (compared against the string `'yes'`) is
passed explicitly. -/
def update (data_profile : Profile) (size_10m : Nat × Nat × Nat)
    (model_output_shape : Nat × Nat × Nat) (copy_original_bands : String)
    (xmi ymi : Int) : Profile :=
  let out_dims := if copy_original_bands = "yes"
    then size_10m.2.2 + model_output_shape.2.2
    else model_output_shape.2.2
  { data_profile with
      transform := Affine.mul data_profile.transform
        (Affine.translation (xmi : ℚ) (ymi : ℚ))
      dtype := "float32"
      driver := "GTiff"
      width := size_10m.2.1
      height := size_10m.1
      count := out_dims }

/-- Embedding of `Superresolution.update` from the refactored `src/` variant:
`out_dims` is always `model_output.shape[2]` (no `copy_original_bands`
branch) and the dtype is uint16. -/
def Superresolution.update (data_profile : Profile) (size_10m : Nat × Nat × Nat)
    (model_output_shape : Nat × Nat × Nat) (xmi ymi : Int) : Profile :=
  { data_profile with
      transform := Affine.mul data_profile.transform
        (Affine.translation (xmi : ℚ) (ymi : ℚ))
      dtype := "uint16"
      driver := "GTiff"
      width := size_10m.2.1
      height := size_10m.1
      count := model_output_shape.2.2 }

/-- A concrete 10 m profile used as input below. -/
def sampleProfile : Profile :=
  ⟨⟨10, 0, 600000, 0, -10, 5300000⟩, "uint16", "GTiff", 100, 100, 4⟩

/-- The region-of-interest input: explicit pixel corners, geographic corners,
or nothing. -/
inductive RoiSetting where
  | xy (x_1 y_1 x_2 y_2 : Int)
  | lonlat (lon1 lat1 lon2 lat2 : ℚ)
  | whole
deriving DecidableEq, Repr

/-- Embedding of the blocks `area_of_interest` dispatch (and the script's
`roi_x_y` dispatch): pixel corners go straight to `get_max_min`; geographic
corners are first projected to pixels by `to_xy` and then go to
`get_max_min`; with no region the whole-raster tuple
`(0, 0, width, height, width*height)` is returned verbatim.  The pyproj
reprojection inside `to_xy` is floating-point and is abstracted as the
function argument `to_xy`. -/
def area_of_interest (to_xy : ℚ → ℚ → Int × Int) (roi : RoiSetting)
    (width height : Int) : RegionOfInterest :=
  match roi with
  | .xy x_1 y_1 x_2 y_2 => get_max_min x_1 y_1 x_2 y_2 width height
  | .lonlat lon1 lat1 lon2 lat2 =>
    let p1 := to_xy lon1 lat1
    let p2 := to_xy lon2 lat2
    get_max_min p1.1 p1.2 p2.1 p2.2 width height
  | .whole => ⟨0, 0, width, height, width * height⟩

/-- All four bounds of a region lie within a `width` x `height` raster, in
the sense claimed by the spec. -/
def roiWithinBounds (r : RegionOfInterest) (width height : Int) : Prop :=
  0 ≤ r.xmin ∧ r.xmax ≤ width - 1 ∧ 0 ≤ r.ymin ∧ r.ymax ≤ height - 1

lemma get_max_min_eq (x_1 y_1 x_2 y_2 width height : Int) :
    get_max_min x_1 y_1 x_2 y_2 width height =
      ⟨(Int.tdiv (clampMin x_1 x_2 width) 6) * 6,
       (Int.tdiv (clampMin y_1 y_2 height) 6) * 6,
       (Int.tdiv (clampMax x_1 x_2 width + 1) 6) * 6 - 1,
       (Int.tdiv (clampMax y_1 y_2 height + 1) 6) * 6 - 1,
       ((Int.tdiv (clampMax x_1 x_2 width + 1) 6) * 6 - 1 -
          (Int.tdiv (clampMin x_1 x_2 width) 6) * 6 + 1) *
        ((Int.tdiv (clampMax y_1 y_2 height + 1) 6) * 6 - 1 -
          (Int.tdiv (clampMin y_1 y_2 height) 6) * 6 + 1)⟩ := rfl

lemma clampMin_nonneg (v_1 v_2 dim : Int) : 0 ≤ clampMin v_1 v_2 dim :=
  le_max_right _ _

lemma clampMax_nonneg (v_1 v_2 dim : Int) (h : 1 ≤ dim) :
    0 ≤ clampMax v_1 v_2 dim :=
  le_min (le_max_right _ _) (by omega)

/-- Snapping a nonnegative value down with `int(v / 6) * 6`: the result is a
multiple of 6, is at most `v`, and is within 5 of `v`. -/
lemma snap_down_spec (v : Int) (hv : 0 ≤ v) :
    6 ∣ (Int.tdiv v 6) * 6 ∧ (Int.tdiv v 6) * 6 ≤ v ∧ v - (Int.tdiv v 6) * 6 < 6 := by
  have h6 : (0:Int) ≤ 6 := by norm_num
  rw [Int.tdiv_eq_ediv hv h6]
  have hm := Int.ediv_add_emod v 6
  have h1 : 0 ≤ v % 6 := Int.emod_nonneg v (by norm_num)
  have h2 : v % 6 < 6 := Int.emod_lt_of_pos v (by norm_num)
  refine ⟨⟨v / 6, by ring⟩, by omega, by omega⟩

/-- Snapping the maximum with `int((M + 1) / 6) * 6 - 1` for `M ≥ 0`: the
result plus one is a multiple of 6, the result is at most `M`, and it is
within 5 of `M`. -/
lemma snap_max_spec (M : Int) (hM : 0 ≤ M) :
    6 ∣ ((Int.tdiv (M + 1) 6) * 6 - 1 + 1) ∧ (Int.tdiv (M + 1) 6) * 6 - 1 ≤ M ∧
      M - ((Int.tdiv (M + 1) 6) * 6 - 1) < 6 := by
  have h6 : (0:Int) ≤ 6 := by norm_num
  rw [Int.tdiv_eq_ediv (by omega) h6]
  have hm := Int.ediv_add_emod (M + 1) 6
  have h1 : 0 ≤ (M + 1) % 6 := Int.emod_nonneg (M + 1) (by norm_num)
  have h2 : (M + 1) % 6 < 6 := Int.emod_lt_of_pos (M + 1) (by norm_num)
  refine ⟨⟨(M + 1) / 6, by ring⟩, by omega, by omega⟩

/-- C8: for every integer input with raster dimensions at least 1, the width
`x_max - x_min + 1` and height `y_max - y_min + 1` of the rectangle returned
by `get_max_min` are exact multiples of 6. -/
theorem c8_width_height_multiple_of_six (x_1 y_1 x_2 y_2 width height : Int)
    (hw : 1 ≤ width) (hh : 1 ≤ height) :
    6 ∣ ((get_max_min x_1 y_1 x_2 y_2 width height).xmax -
          (get_max_min x_1 y_1 x_2 y_2 width height).xmin + 1) ∧
    6 ∣ ((get_max_min x_1 y_1 x_2 y_2 width height).ymax -
          (get_max_min x_1 y_1 x_2 y_2 width height).ymin + 1) := by
  rw [get_max_min_eq]
  constructor
  · exact ⟨Int.tdiv (clampMax x_1 x_2 width + 1) 6 -
      Int.tdiv (clampMin x_1 x_2 width) 6, by ring⟩
  · exact ⟨Int.tdiv (clampMax y_1 y_2 height + 1) 6 -
      Int.tdiv (clampMin y_1 y_2 height) 6, by ring⟩

theorem c8_witness :
    (1:Int) ≤ 40 ∧ (6 ∣ ((get_max_min 0 0 10 10 40 40).xmax -
        (get_max_min 0 0 10 10 40 40).xmin + 1) ∧
      6 ∣ ((get_max_min 0 0 10 10 40 40).ymax -
        (get_max_min 0 0 10 10 40 40).ymin + 1)) :=
  ⟨by norm_num, c8_width_height_multiple_of_six 0 0 10 10 40 40 (by norm_num) (by norm_num)⟩

lemma tdiv6_eq_of_bounds (a q : Int) (ha : 0 ≤ a) (h1 : 6 * q ≤ a)
    (h2 : a < 6 * (q + 1)) : Int.tdiv a 6 = q := by
  rw [Int.tdiv_eq_ediv ha (by norm_num)]
  have hm := Int.ediv_add_emod a 6
  have hr1 : 0 ≤ a % 6 := Int.emod_nonneg a (by norm_num)
  have hr2 : a % 6 < 6 := Int.emod_lt_of_pos a (by norm_num)
  omega

/-- C1 counterexample: on input `(0, 0, 400, 400)` with a 401x401 raster the
clamped maximum is 400, yet `get_max_min` returns `x_max = 395 < 400`: the
snapping reduces the upper bound below the clamped maximum, contradicting the
claim that the bound is only ever enlarged outward to the next `6k - 1`. -/
theorem c1_counterexample :
    (get_max_min 0 0 400 400 401 401).xmax = 395 ∧
    clampMax 400 400 401 = 400 ∧
    (get_max_min 0 0 400 400 401 401).xmax < clampMax 400 400 401 := by
  refine ⟨by decide, by decide, by decide⟩

/-- C1 (amended): after clamping into `[0, dim-1]` and per-axis min/max, the
returned `x_min` is the clamped minimum rounded down to the nearest multiple
of 6, and the returned `x_max` is the largest value of the form `6k - 1` that
is at most the clamped maximum (the upper bound is only ever reduced inward
by the 60 m snapping, by at most 5, never enlarged past the clamped maximum);
symmetrically for y. -/
theorem c1_snapping_characterization (x_1 y_1 x_2 y_2 width height : Int)
    (hw : 1 ≤ width) (hh : 1 ≤ height) :
    (6 ∣ (get_max_min x_1 y_1 x_2 y_2 width height).xmin ∧
      (get_max_min x_1 y_1 x_2 y_2 width height).xmin ≤ clampMin x_1 x_2 width ∧
      clampMin x_1 x_2 width - (get_max_min x_1 y_1 x_2 y_2 width height).xmin < 6) ∧
    (6 ∣ ((get_max_min x_1 y_1 x_2 y_2 width height).xmax + 1) ∧
      (get_max_min x_1 y_1 x_2 y_2 width height).xmax ≤ clampMax x_1 x_2 width ∧
      clampMax x_1 x_2 width - (get_max_min x_1 y_1 x_2 y_2 width height).xmax < 6) ∧
    (6 ∣ (get_max_min x_1 y_1 x_2 y_2 width height).ymin ∧
      (get_max_min x_1 y_1 x_2 y_2 width height).ymin ≤ clampMin y_1 y_2 height ∧
      clampMin y_1 y_2 height - (get_max_min x_1 y_1 x_2 y_2 width height).ymin < 6) ∧
    (6 ∣ ((get_max_min x_1 y_1 x_2 y_2 width height).ymax + 1) ∧
      (get_max_min x_1 y_1 x_2 y_2 width height).ymax ≤ clampMax y_1 y_2 height ∧
      clampMax y_1 y_2 height - (get_max_min x_1 y_1 x_2 y_2 width height).ymax < 6) := by
  rw [get_max_min_eq]
  have hx := snap_down_spec (clampMin x_1 x_2 width) (clampMin_nonneg _ _ _)
  have hy := snap_down_spec (clampMin y_1 y_2 height) (clampMin_nonneg _ _ _)
  have hX := snap_max_spec (clampMax x_1 x_2 width) (clampMax_nonneg _ _ _ hw)
  have hY := snap_max_spec (clampMax y_1 y_2 height) (clampMax_nonneg _ _ _ hh)
  exact ⟨hx, hX, hy, hY⟩

theorem c1_witness :
    (1:Int) ≤ 40 ∧
    ((6 ∣ (get_max_min 0 0 10 10 40 40).xmin ∧
      (get_max_min 0 0 10 10 40 40).xmin ≤ clampMin 0 10 40 ∧
      clampMin 0 10 40 - (get_max_min 0 0 10 10 40 40).xmin < 6) ∧
    (6 ∣ ((get_max_min 0 0 10 10 40 40).xmax + 1) ∧
      (get_max_min 0 0 10 10 40 40).xmax ≤ clampMax 0 10 40 ∧
      clampMax 0 10 40 - (get_max_min 0 0 10 10 40 40).xmax < 6) ∧
    (6 ∣ (get_max_min 0 0 10 10 40 40).ymin ∧
      (get_max_min 0 0 10 10 40 40).ymin ≤ clampMin 0 10 40 ∧
      clampMin 0 10 40 - (get_max_min 0 0 10 10 40 40).ymin < 6) ∧
    (6 ∣ ((get_max_min 0 0 10 10 40 40).ymax + 1) ∧
      (get_max_min 0 0 10 10 40 40).ymax ≤ clampMax 0 10 40 ∧
      clampMax 0 10 40 - (get_max_min 0 0 10 10 40 40).ymax < 6)) :=
  ⟨by norm_num,
   c1_snapping_characterization 0 0 10 10 40 40 (by norm_num) (by norm_num)⟩

/-- C7: `get_max_min 0 0 400 400` on any raster with both dimensions at least
400 returns `(0, 0, 395, 395)` with area 156816; `get_max_min 0 0 10 10` on a
40x40 raster returns `(0, 0, 5, 5)` with area 36; and the returned area always
equals `(x_max - x_min + 1) * (y_max - y_min + 1)`. -/
theorem c7_resolve_pixel_window_examples :
    (∀ width height : Int, 400 ≤ width → 400 ≤ height →
      get_max_min 0 0 400 400 width height = ⟨0, 0, 395, 395, 156816⟩) ∧
    get_max_min 0 0 10 10 40 40 = ⟨0, 0, 5, 5, 36⟩ ∧
    (∀ x_1 y_1 x_2 y_2 width height : Int,
      (get_max_min x_1 y_1 x_2 y_2 width height).area =
        ((get_max_min x_1 y_1 x_2 y_2 width height).xmax -
          (get_max_min x_1 y_1 x_2 y_2 width height).xmin + 1) *
        ((get_max_min x_1 y_1 x_2 y_2 width height).ymax -
          (get_max_min x_1 y_1 x_2 y_2 width height).ymin + 1)) := by
  refine ⟨?_, by decide, fun x_1 y_1 x_2 y_2 width height => rfl⟩
  intro width height hw hh
  rw [get_max_min_eq]
  have hminx : clampMin 0 400 width = 0 := by unfold clampMin; omega
  have hminy : clampMin 0 400 height = 0 := by unfold clampMin; omega
  have hmaxx1 : 399 ≤ clampMax 0 400 width := by unfold clampMax; omega
  have hmaxx2 : clampMax 0 400 width ≤ 400 := by unfold clampMax; omega
  have hmaxy1 : 399 ≤ clampMax 0 400 height := by unfold clampMax; omega
  have hmaxy2 : clampMax 0 400 height ≤ 400 := by unfold clampMax; omega
  have hqx : Int.tdiv (clampMax 0 400 width + 1) 6 = 66 :=
    tdiv6_eq_of_bounds _ _ (by omega) (by omega) (by omega)
  have hqy : Int.tdiv (clampMax 0 400 height + 1) 6 = 66 :=
    tdiv6_eq_of_bounds _ _ (by omega) (by omega) (by omega)
  rw [hminx, hminy, hqx, hqy]
  norm_num [RegionOfInterest.mk.injEq]

theorem c7_witness :
    get_max_min 0 0 400 400 400 400 = ⟨0, 0, 395, 395, 156816⟩ :=
  c7_resolve_pixel_window_examples.1 400 400 (by norm_num) (by norm_num)

lemma validateAux_nil (normalize : String → String) (pool : List String) (i : Nat) :
    validateAux normalize pool [] i = ⟨[], [], [], pool⟩ := rfl

lemma validateAux_cons (normalize : String → String) (pool : List String)
    (d : String) (rest : List String) (i : Nat) :
    validateAux normalize pool (d :: rest) i =
      if get_band_short_name (normalize d) ∈ pool then
        ⟨get_band_short_name (normalize d) ::
            (validateAux normalize (pool.erase (get_band_short_name (normalize d))) rest (i + 1)).bands,
         i :: (validateAux normalize (pool.erase (get_band_short_name (normalize d))) rest (i + 1)).indices,
         (get_band_short_name (normalize d), normalize d) ::
            (validateAux normalize (pool.erase (get_band_short_name (normalize d))) rest (i + 1)).descmap,
         (validateAux normalize (pool.erase (get_band_short_name (normalize d))) rest (i + 1)).pool⟩
      else validateAux normalize pool rest (i + 1) := rfl

lemma validateAux_pool_subset (normalize : String → String) :
    ∀ (descs pool : List String) (i : Nat),
      (validateAux normalize pool descs i).pool ⊆ pool := by
  intro descs
  induction descs with
  | nil => intro pool i; rw [validateAux_nil]; exact fun _ h => h
  | cons d rest ih =>
    intro pool i
    rw [validateAux_cons]
    by_cases hm : get_band_short_name (normalize d) ∈ pool
    · rw [if_pos hm]
      exact (ih _ (i + 1)).trans (List.erase_subset _ _)
    · rw [if_neg hm]
      exact ih pool (i + 1)

lemma validateAux_bands_subset (normalize : String → String) :
    ∀ (descs pool : List String) (i : Nat) (n : String),
      n ∈ (validateAux normalize pool descs i).bands → n ∈ pool := by
  intro descs
  induction descs with
  | nil => intro pool i n h; rw [validateAux_nil] at h; simp at h
  | cons d rest ih =>
    intro pool i n h
    rw [validateAux_cons] at h
    by_cases hm : get_band_short_name (normalize d) ∈ pool
    · rw [if_pos hm] at h
      rcases List.mem_cons.mp h with h1 | h2
      · exact h1 ▸ hm
      · exact List.erase_subset _ _ (ih _ _ _ h2)
    · rw [if_neg hm] at h
      exact ih _ _ _ h

lemma validateAux_nodup_pool (normalize : String → String) :
    ∀ (descs pool : List String) (i : Nat),
      pool.Nodup → ((validateAux normalize pool descs i).pool).Nodup := by
  intro descs
  induction descs with
  | nil => intro pool i h; rw [validateAux_nil]; exact h
  | cons d rest ih =>
    intro pool i h
    rw [validateAux_cons]
    by_cases hm : get_band_short_name (normalize d) ∈ pool
    · rw [if_pos hm]
      exact ih _ (i + 1) (h.erase _)
    · rw [if_neg hm]
      exact ih pool (i + 1) h

lemma validateAux_bands_not_mem_pool (normalize : String → String) :
    ∀ (descs pool : List String) (i : Nat), pool.Nodup →
      ∀ n ∈ (validateAux normalize pool descs i).bands,
        n ∉ (validateAux normalize pool descs i).pool := by
  intro descs
  induction descs with
  | nil => intro pool i _ n h; rw [validateAux_nil] at h; simp at h
  | cons d rest ih =>
    intro pool i hnd n h
    rw [validateAux_cons] at h ⊢
    by_cases hm : get_band_short_name (normalize d) ∈ pool
    · rw [if_pos hm] at h ⊢
      rcases List.mem_cons.mp h with h1 | h2
      · subst h1
        intro hcon
        exact hnd.not_mem_erase (validateAux_pool_subset normalize rest _ (i + 1) hcon)
      · exact ih _ (i + 1) (hnd.erase _) n h2
    · rw [if_neg hm] at h ⊢
      exact ih pool (i + 1) hnd n h

lemma validateAux_claimed_removed (normalize : String → String) :
    ∀ (descs pool : List String) (i : Nat) (n : String), pool.Nodup →
      n ∈ pool → (∃ d ∈ descs, get_band_short_name (normalize d) = n) →
      n ∉ (validateAux normalize pool descs i).pool := by
  intro descs
  induction descs with
  | nil => intro pool i n _ _ hex; rcases hex with ⟨d, hd, _⟩; simp at hd
  | cons d rest ih =>
    intro pool i n hnd hn hex
    rw [validateAux_cons]
    by_cases hdn : get_band_short_name (normalize d) = n
    · rw [if_pos (hdn ▸ hn)]
      intro hcon
      exact hnd.not_mem_erase
        (validateAux_pool_subset normalize rest _ (i + 1) (hdn ▸ hcon))
    · have hex2 : ∃ d2 ∈ rest, get_band_short_name (normalize d2) = n := by
        rcases hex with ⟨d2, hd2, he⟩
        rcases List.mem_cons.mp hd2 with h1 | h2
        · exact absurd (h1 ▸ he) hdn
        · exact ⟨d2, h2, he⟩
      by_cases hm : get_band_short_name (normalize d) ∈ pool
      · rw [if_pos hm]
        exact ih _ (i + 1) n (hnd.erase _)
          ((List.mem_erase_of_ne (Ne.symm hdn)).mpr hn) hex2
      · rw [if_neg hm]
        exact ih pool (i + 1) n hnd hn hex2

lemma validateAux_no_claim (normalize : String → String) :
    ∀ (descs pool : List String) (i : Nat),
      (∀ d ∈ descs, get_band_short_name (normalize d) ∉ pool) →
      validateAux normalize pool descs i = ⟨[], [], [], pool⟩ := by
  intro descs
  induction descs with
  | nil => intro pool i _; rw [validateAux_nil]
  | cons d rest ih =>
    intro pool i h
    rw [validateAux_cons, if_neg (h d (List.mem_cons_self d rest))]
    exact ih pool (i + 1) fun d2 hd2 => h d2 (List.mem_cons_of_mem d hd2)

/-- C2: in the script's reconciliation of one scene — three `validate` calls
in the order 10 m, 20 m, 60 m sharing the mutable `select_bands` pool — no
band code appears in more than one of the three returned code lists: the
candidate pool shrinks across the three calls, so a code whose description
occurs at several resolutions is claimed only by the first resolution
scanned. -/
theorem c2_codes_disjoint_across_resolutions (run_60 : Bool)
    (output_file_format : String) (d10 d20 d60 : Raster) :
    List.Disjoint
      (validate output_file_format (select_bands run_60) d10).bands
      (validate output_file_format
        (validate output_file_format (select_bands run_60) d10).pool d20).bands ∧
    List.Disjoint
      (validate output_file_format (select_bands run_60) d10).bands
      (validate output_file_format
        (validate output_file_format
          (validate output_file_format (select_bands run_60) d10).pool d20).pool d60).bands ∧
    List.Disjoint
      (validate output_file_format
        (validate output_file_format (select_bands run_60) d10).pool d20).bands
      (validate output_file_format
        (validate output_file_format
          (validate output_file_format (select_bands run_60) d10).pool d20).pool d60).bands := by
  have hnd0 : (select_bands run_60).Nodup := by cases run_60 <;> decide
  have hnd1 : ((validate output_file_format (select_bands run_60) d10).pool).Nodup :=
    validateAux_nodup_pool _ _ _ _ hnd0
  refine ⟨?_, ?_, ?_⟩
  · intro a ha1 ha2
    exact validateAux_bands_not_mem_pool _ _ _ _ hnd0 a ha1
      (validateAux_bands_subset _ _ _ _ a ha2)
  · intro a ha1 ha3
    exact validateAux_bands_not_mem_pool _ _ _ _ hnd0 a ha1
      (validateAux_pool_subset _ _ _ _
        (validateAux_bands_subset _ _ _ _ a ha3))
  · intro a ha2 ha3
    exact validateAux_bands_not_mem_pool _ _ _ _ hnd1 a ha2
      (validateAux_bands_subset _ _ _ _ a ha3)

/-- C5 counterexample: on a raster with one band described as the canonical
B2 band, the script's first `validate` call returns codes `["B2"]`, but a
second call in succession — consuming the same shared pool — returns `[]`:
reconciliation is not idempotent in the script. -/
theorem c5_counterexample :
    (validate ("GTiff") (select_bands true) b2Raster).bands = ["B2"] ∧
    (validate ("GTiff")
      (validate ("GTiff") (select_bands true) b2Raster).pool b2Raster).bands = [] ∧
    (["B2"] : List String) ≠ [] := by
  exact ⟨by decide, by decide, by decide⟩

/-- C5 (amended): the refactored `Superresolution.validate` re-creates the
candidate pool inside every call and is therefore trivially idempotent, but
the script's `validate` consumes the shared pool: a second call in immediate
succession on the same raster claims nothing — it returns empty codes,
indices and descriptions and leaves the pool unchanged. -/
theorem c5_second_call_returns_empty (output_file_format : String)
    (pool : List String) (data : Raster) (hnd : pool.Nodup) :
    (validate output_file_format
      (validate output_file_format pool data).pool data).bands = [] ∧
    (validate output_file_format
      (validate output_file_format pool data).pool data).indices = [] ∧
    (validate output_file_format
      (validate output_file_format pool data).pool data).descmap = [] ∧
    (validate output_file_format
      (validate output_file_format pool data).pool data).pool =
      (validate output_file_format pool data).pool := by
  have key : ∀ d ∈ data.descriptions,
      get_band_short_name (validate_description output_file_format d) ∉
        (validate output_file_format pool data).pool := by
    intro d hd
    by_cases hmem : get_band_short_name (validate_description output_file_format d) ∈ pool
    · exact validateAux_claimed_removed _ _ _ _ _ hnd hmem ⟨d, hd, rfl⟩
    · intro hcon
      exact hmem (validateAux_pool_subset _ _ _ _ hcon)
  have h2 := validateAux_no_claim (validate_description output_file_format)
    data.descriptions (validate output_file_format pool data).pool 0 key
  unfold validate
  unfold validate at h2
  rw [h2]
  exact ⟨rfl, rfl, rfl, rfl⟩

theorem c5_witness :
    (select_bands false).Nodup ∧
    (validate ("GTiff")
      (validate ("GTiff") (select_bands false) b2Raster).pool b2Raster).bands = [] ∧
    (validate ("GTiff")
      (validate ("GTiff") (select_bands false) b2Raster).pool b2Raster).indices = [] ∧
    (validate ("GTiff")
      (validate ("GTiff") (select_bands false) b2Raster).pool b2Raster).descmap = [] ∧
    (validate ("GTiff")
      (validate ("GTiff") (select_bands false) b2Raster).pool b2Raster).pool =
      (validate ("GTiff") (select_bands false) b2Raster).pool :=
  ⟨by decide, c5_second_call_returns_empty ("GTiff") (select_bands false) b2Raster (by decide)⟩

lemma get_max_min_within_bounds (x_1 y_1 x_2 y_2 width height : Int)
    (hw : 1 ≤ width) (hh : 1 ≤ height) :
    roiWithinBounds (get_max_min x_1 y_1 x_2 y_2 width height) width height := by
  rw [get_max_min_eq]
  unfold roiWithinBounds
  have hX := snap_max_spec (clampMax x_1 x_2 width) (clampMax_nonneg _ _ _ hw)
  have hY := snap_max_spec (clampMax y_1 y_2 height) (clampMax_nonneg _ _ _ hh)
  have hXle : clampMax x_1 x_2 width ≤ width - 1 := min_le_right _ _
  have hYle : clampMax y_1 y_2 height ≤ height - 1 := min_le_right _ _
  have hxm : 0 ≤ Int.tdiv (clampMin x_1 x_2 width) 6 :=
    Int.tdiv_nonneg (clampMin_nonneg _ _ _) (by norm_num)
  have hym : 0 ≤ Int.tdiv (clampMin y_1 y_2 height) 6 :=
    Int.tdiv_nonneg (clampMin_nonneg _ _ _) (by norm_num)
  refine ⟨mul_nonneg hxm (by norm_num), hX.2.1.trans hXle,
    mul_nonneg hym (by norm_num), hY.2.1.trans hYle⟩

/-- C6 counterexample: with no region supplied, the resolver returns the
whole-raster tuple `(0, 0, width, height)`; on a 12x12 raster this has
`x_max = 12 > width - 1 = 11`, so not every produced region has all four
bounds within the raster. -/
theorem c6_counterexample :
    area_of_interest (fun _ _ => (0, 0)) RoiSetting.whole 12 12 =
      ⟨0, 0, 12, 12, 144⟩ ∧
    ¬ roiWithinBounds (area_of_interest (fun _ _ => (0, 0)) RoiSetting.whole 12 12)
        12 12 := by
  refine ⟨rfl, ?_⟩
  intro h
  exact absurd h.2.1 (by decide)

/-- C6 (amended): on the explicit-pixel path and the geographic path every
produced region has all four bounds within the 10 m raster
(`0 ≤ x_min`, `x_max ≤ width - 1`, `0 ≤ y_min`, `y_max ≤ height - 1`), but
the no-region whole-raster default returns `(0, 0, width, height)` verbatim,
whose `x_max`/`y_max` exceed `width - 1`/`height - 1` by one. -/
theorem c6_bounds_on_roi_paths (to_xy : ℚ → ℚ → Int × Int)
    (width height : Int) (hw : 1 ≤ width) (hh : 1 ≤ height) :
    (∀ x_1 y_1 x_2 y_2 : Int,
      roiWithinBounds
        (area_of_interest to_xy (RoiSetting.xy x_1 y_1 x_2 y_2) width height)
        width height) ∧
    (∀ lon1 lat1 lon2 lat2 : ℚ,
      roiWithinBounds
        (area_of_interest to_xy (RoiSetting.lonlat lon1 lat1 lon2 lat2) width height)
        width height) ∧
    area_of_interest to_xy RoiSetting.whole width height =
      ⟨0, 0, width, height, width * height⟩ := by
  refine ⟨fun x_1 y_1 x_2 y_2 => ?_, fun lon1 lat1 lon2 lat2 => ?_, rfl⟩
  · exact get_max_min_within_bounds x_1 y_1 x_2 y_2 width height hw hh
  · exact get_max_min_within_bounds _ _ _ _ width height hw hh

theorem c6_witness :
    roiWithinBounds
      (area_of_interest (fun _ _ => (0, 0)) (RoiSetting.xy 0 0 10 10) 12 12) 12 12 :=
  (c6_bounds_on_roi_paths (fun _ _ => (0, 0)) 12 12 (by norm_num) (by norm_num)).1 0 0 10 10

/-- C9 counterexample: the description `"Hello, world"` does not match the
wavelength pattern, yet under the ENVI output format `validate_description`
deletes its first comma and returns `"Hello world"`: non-matching
descriptions are not returned unchanged for every output file format. -/
theorem c9_counterexample :
    findWavelength [] (("Hello, world").toList) = none ∧
    validate_description ("ENVI") ("Hello, world") = "Hello world" ∧
    ("Hello world" : String) ≠ "Hello, world" := by
  exact ⟨by decide, by decide, by decide⟩

/-- C9 (amended): a description that does not match the pattern is returned
unchanged for every output file format other than ENVI, and also under ENVI
when it contains no comma; under ENVI with a comma present the first comma is
deleted. -/
theorem c9_nonmatching_description (output_file_format : String)
    (description : String)
    (hm : findWavelength [] description.toList = none) :
    (output_file_format ≠ "ENVI" →
      validate_description output_file_format description = description) ∧
    (',' ∉ description.toList →
      validate_description output_file_format description = description) ∧
    (output_file_format = "ENVI" → ',' ∈ description.toList →
      validate_description output_file_format description =
        String.mk (description.toList.erase ',')) := by
  unfold validate_description
  rw [hm]
  refine ⟨?_, ?_, ?_⟩
  · intro hf
    rw [if_neg]
    intro hcon
    exact hf hcon.1
  · intro hc
    rw [if_neg]
    intro hcon
    exact hc hcon.2
  · intro hf hc
    rw [if_pos ⟨hf, hc⟩]

theorem c9_witness :
    validate_description ("npz") ("Hello, world") = "Hello, world" :=
  (c9_nonmatching_description ("npz") ("Hello, world") (by decide)).1 (by decide)

/-- C4 counterexample: the refactored `Superresolution.update` has no
`copy_original_bands` branch — even when the parameter is set, the band
count of the returned profile is the model output channel count alone
(here 8), not the claimed `10m band count + model channels = 12`. -/
theorem c4_counterexample :
    (Superresolution.update sampleProfile (6, 7, 4) (6, 7, 8) 12 18).count = 8 ∧
    (8 : Nat) ≠ 4 + 8 := by
  exact ⟨rfl, by decide⟩

/-- C4 (amended): the blocks `update` behaves exactly as claimed — band count
is model channels plus the 10 m window's band count when
`copy_original_bands` equals `'yes'`, model channels alone otherwise; width
and height are the extracted 10 m window's column and row counts; and the
output transform sends output pixel `(col, row)` where the source transform
sends `(col + x_min, row + y_min)`.  The refactored `Superresolution.update`
satisfies the same width, height and transform properties, but its band
count is always the model output's channel count, ignoring
`copy_original_bands`. -/
theorem c4_output_profile_properties (data_profile : Profile)
    (size_10m model_output_shape : Nat × Nat × Nat)
    (copy_original_bands : String) (xmi ymi : Int) :
    ((update data_profile size_10m model_output_shape copy_original_bands xmi ymi).count =
      if copy_original_bands = "yes" then size_10m.2.2 + model_output_shape.2.2
      else model_output_shape.2.2) ∧
    (update data_profile size_10m model_output_shape copy_original_bands xmi ymi).width =
      size_10m.2.1 ∧
    (update data_profile size_10m model_output_shape copy_original_bands xmi ymi).height =
      size_10m.1 ∧
    (∀ col row : ℚ,
      Affine.apply
        (update data_profile size_10m model_output_shape copy_original_bands xmi ymi).transform
        col row =
      Affine.apply data_profile.transform (col + (xmi : ℚ)) (row + (ymi : ℚ))) ∧
    (Superresolution.update data_profile size_10m model_output_shape xmi ymi).count =
      model_output_shape.2.2 ∧
    (Superresolution.update data_profile size_10m model_output_shape xmi ymi).width =
      size_10m.2.1 ∧
    (Superresolution.update data_profile size_10m model_output_shape xmi ymi).height =
      size_10m.1 ∧
    (∀ col row : ℚ,
      Affine.apply
        (Superresolution.update data_profile size_10m model_output_shape xmi ymi).transform
        col row =
      Affine.apply data_profile.transform (col + (xmi : ℚ)) (row + (ymi : ℚ))) := by
  refine ⟨rfl, rfl, rfl, ?_, rfl, rfl, rfl, ?_⟩ <;>
  · intro col row
    show Affine.apply
        (Affine.mul data_profile.transform (Affine.translation (xmi : ℚ) (ymi : ℚ)))
        col row =
      Affine.apply data_profile.transform (col + (xmi : ℚ)) (row + (ymi : ℚ))
    simp only [Affine.apply, Affine.mul, Affine.translation, Prod.mk.injEq]
    exact ⟨by ring, by ring⟩

/-- C3 (evaluation at the failing input): for the 6-aligned 10 m window
`(0, 0, 5, 5)` (width 6) the claimed native width at scale 2 is
`(5 - 0 + 2) // 2 = 3` — and the refactored `Superresolution.data_final`
invoked with `n_res = scale = 2` does read 3 native columns — but the
blocks/script call site passes pre-divided coordinates with `n = 1 // 2 = 0`,
so the window actually read is only 2 native columns wide; likewise at scale
6 a width-36 window (`(0, 0, 35, 35)`) claims `(35 - 0 + 6) // 6 = 6` native
columns but the call site reads 5. -/
theorem c3_extraction_window_off_by_one :
    (run_model_window10 0 0 5 5).width = 6 ∧
    (run_model_window20 0 0 5 5).width = 2 ∧
    ((data_final b2Raster [0] (Int.fdiv 0 2) (Int.fdiv 0 2) (Int.fdiv 5 2)
        (Int.fdiv 5 2) (Int.fdiv 1 2)).map Arr3.d1 = some 2) ∧
    ((Superresolution.data_final b2Raster [0] 0 0 5 5 2 2).map Arr3.d1 = some 3) ∧
    Int.fdiv ((5 : Int) - 0 + 2) 2 = 3 ∧
    (2 : Int) ≠ 3 ∧
    (run_model_window60 0 0 35 35).width = 5 ∧
    ((Superresolution.data_final b2Raster [0] 0 0 35 35 6 6).map Arr3.d1 = some 6) ∧
    Int.fdiv ((35 : Int) - 0 + 6) 6 = 6 ∧
    (5 : Int) ≠ 6 := by
  refine ⟨by decide, by decide, by decide, by decide, by decide,
    by decide, by decide, by decide, by decide, by decide⟩

/-- C10: `data_final` called with an empty band-index list skips the guarded
read and fails without returning an array (the `UnboundLocalError` is
modelled as `none`), in both the script/blocks variant and the refactored
variant; with a non-empty index list it always returns a
rows x columns x bands array: shape `(window height, window width,
len(term))`. -/
theorem c10_data_final_empty_guard (data : Raster) (term : List Nat)
    (x_mi y_mi x_ma y_ma n n_res scale : Int) :
    (term = [] →
      data_final data term x_mi y_mi x_ma y_ma n = none ∧
      Superresolution.data_final data term x_mi y_mi x_ma y_ma n_res scale = none) ∧
    (term ≠ [] → ∃ a : Arr3,
      data_final data term x_mi y_mi x_ma y_ma n = some a ∧
      a.d0 = (y_ma - y_mi + n).toNat ∧
      a.d1 = (x_ma - x_mi + n).toNat ∧
      a.d2 = term.length) := by
  constructor
  · intro h
    unfold data_final Superresolution.data_final
    rw [if_pos h, if_pos h]
    exact ⟨rfl, rfl⟩
  · intro h
    refine ⟨indexLastAxis (rollaxis_0_3
      (data.read (mkWindow x_mi y_mi x_ma y_ma n))) term, ?_, rfl, rfl, rfl⟩
    unfold data_final
    rw [if_neg h]

theorem c10_witness :
    (data_final b2Raster [] 0 0 5 5 1 = none ∧
      Superresolution.data_final b2Raster [] 0 0 5 5 0 1 = none) ∧
    (∃ a : Arr3, data_final b2Raster [0] 0 0 5 5 1 = some a ∧
      a.d0 = ((5 : Int) - 0 + 1).toNat ∧
      a.d1 = ((5 : Int) - 0 + 1).toNat ∧
      a.d2 = ([0] : List Nat).length) :=
  ⟨(c10_data_final_empty_guard b2Raster [] 0 0 5 5 1 0 1).1 rfl,
   (c10_data_final_empty_guard b2Raster [0] 0 0 5 5 1 0 1).2 (by decide)⟩
